import Mathlib

/-!
Verification of the `catr` line-display utility (src/src/lib.rs).

Lines are modelled as lists of Unicode code points (`Nat`); strings that are
never transformed (file names, error descriptions) stay as `String`.
Fallible Rust operations are modelled with `Option` / `Except`.
-/

/-- A decoded text line: its characters' code points, without the terminator. -/
abbrev Line := List Nat

/-- The boolean flags of `Config` (src/src/lib.rs lines 10-18); the `files`
field is modelled separately as the input list handed to `run`. -/
structure Config where
  number_lines : Bool
  number_nonblank_lines : Bool
  show_tabs : Bool
  show_ends : Bool
  show_nonprinting : Bool
  squeeze_blank : Bool
deriving DecidableEq

/-- The per-input mutable loop state of `run`: `last_num` (line 30) and
`blank_appear` (line 31). -/
structure LineState where
  lastNum : Nat
  blankAppear : Bool
deriving DecidableEq

/-- Rust `char::from_u32`: `some` exactly on Unicode scalar values
(below the surrogate range, or between it and 0x110000). -/
def char_from_u32 (n : Nat) : Option Nat :=
  if n < 0xD800 ∨ (0xDFFF < n ∧ n < 0x110000) then some n else none

/-- Decimal digit characters of `n`, most significant first, structurally
recursive via fuel (`n+1` digits always suffice); models Rust
`u32::to_string`. -/
def natToDecimalAux : Nat → Nat → List Nat
  | 0, _ => []
  | fuel + 1, n =>
    if n < 10 then [48 + n]
    else natToDecimalAux fuel (n / 10) ++ [48 + n % 10]

/-- ASCII decimal representation of `n` (Rust `u32::to_string`). -/
def natToDecimal (n : Nat) : List Nat :=
  natToDecimalAux (n + 1) n

/-- Rust `format!("{:6}", n)`: the decimal digits of `n` right-justified with
spaces to a minimum width of 6. -/
def numFmt (n : Nat) : Line :=
  List.replicate (6 - (natToDecimal n).length) 32 ++ natToDecimal n

/-- `line.replace("\t", "^I")` (src/src/lib.rs line 44): every tab (0x09)
becomes `^I` (0x5E 0x49). -/
def showTabs : Line → Line
  | [] => []
  | c :: cs => (if c = 9 then [0x5E, 0x49] else [c]) ++ showTabs cs

/-- The per-character re-encoding of the `show_nonprinting` branch
(src/src/lib.rs lines 52-67), with the `unwrap` on `char::from_u32`
kept fallible: `none` models the panic. -/
def escapeCharChecked (c : Nat) : Option (List Nat) :=
  if 1 ≤ c ∧ c ≤ 0x1E then
    (char_from_u32 (c + 0x40)).map (fun d => [0x5E, d])
  else if c = 0x7F then some [0x5E, 0x3F]
  else if 0x80 ≤ c ∧ c ≤ 0xFF then some ([0x4D, 0x2D] ++ natToDecimal c)
  else some [c]

/-- The per-character re-encoding actually used by the pipeline; theorem
`catr_C9` shows the fallback for the `unwrap` panic is never taken. -/
def escapeChar (c : Nat) : List Nat :=
  (escapeCharChecked c).getD []

/-- `line.chars().map(...).collect()` over `escapeChar`. -/
def escapeLine : Line → Line
  | [] => []
  | c :: cs => escapeChar c ++ escapeLine cs

/-- `escapeLine` with the `unwrap` kept fallible. -/
def escapeLineChecked : Line → Option Line
  | [] => some []
  | c :: cs => do
    let x ← escapeCharChecked c
    let xs ← escapeLineChecked cs
    pure (x ++ xs)

/-- Steps 2-4 of the per-line pipeline (src/src/lib.rs lines 43-68): tab
visualization, then end marker, then nonprinting escape. -/
def transform (cfg : Config) (l : Line) : Line :=
  let l₁ := if cfg.show_tabs then showTabs l else l
  let l₂ := if cfg.show_ends then l₁ ++ [0x24] else l₁
  if cfg.show_nonprinting then escapeLine l₂ else l₂

/-- `transform` with the `unwrap` kept fallible. -/
def transformChecked (cfg : Config) (l : Line) : Option Line :=
  let l₁ := if cfg.show_tabs then showTabs l else l
  let l₂ := if cfg.show_ends then l₁ ++ [0x24] else l₁
  if cfg.show_nonprinting then escapeLineChecked l₂ else some l₂

/-- One iteration of the per-line loop of `run` (src/src/lib.rs lines 33-81):
squeeze check, transforms, then numbering and emission. Returns the updated
state and the emitted line (`none` when squeezed away). `lineNum` is the
0-based `enumerate` index of the line. -/
def procLine (cfg : Config) (lineNum : Nat) (line : Line) (st : LineState) :
    LineState × Option Line :=
  if cfg.squeeze_blank && line.isEmpty && st.blankAppear then (st, none)
  else
    let st :=
      if cfg.squeeze_blank && line.isEmpty then { st with blankAppear := true }
      else st
    let line := transform cfg line
    if cfg.number_lines then
      (st, some (numFmt (lineNum + 1) ++ 9 :: line))
    else if cfg.number_nonblank_lines then
      if line.isEmpty then (st, some [])
      else ({ st with lastNum := st.lastNum + 1 },
            some (numFmt (st.lastNum + 1) ++ 9 :: line))
    else (st, some line)

/-- The inner `for (line_num, line_result) in file.lines().enumerate()` loop:
processes line results in order starting at index `lineNum`, accumulating
emitted lines; an `Except.error` line result aborts with that error
(the `?` on line 34). -/
def procLines (cfg : Config) :
    List (Except String Line) → Nat → LineState → List Line × Except String Unit
  | [], _, _ => ([], Except.ok ())
  | Except.error e :: _, _, _ => ([], Except.error e)
  | Except.ok line :: rest, lineNum, st =>
    let p := procLine cfg lineNum line st
    let q := procLines cfg rest (lineNum + 1) p.1
    (p.2.elim q.1 (fun o => o :: q.1), q.2)

/-- `run` (src/src/lib.rs lines 20-85). Each input is its identifier paired
with its acquisition result: `Except.error e` when `open` fails, otherwise
the stream of line-read results. Returns (stdout lines, stderr lines,
overall result). On acquisition failure the diagnostic line is pushed and
processing continues (lines 24-27); a line-read error is returned fatally. -/
def run (cfg : Config) :
    List (String × Except String (List (Except String Line))) →
    List Line × List String × Except String Unit
  | [] => ([], [], Except.ok ())
  | (fname, Except.error e) :: rest =>
    let r := run cfg rest
    (r.1, (fname ++ ": " ++ e) :: r.2.1, r.2.2)
  | (_, Except.ok ls) :: rest =>
    let p := procLines cfg ls 0 ⟨0, false⟩
    match p.2 with
    | Except.error e => (p.1, [], Except.error e)
    | Except.ok _ =>
      let r := run cfg rest
      (p.1 ++ r.1, r.2.1, r.2.2)

/-- The raw presence bits of the command-line arguments consumed by
`get_args` (src/src/lib.rs lines 87-197). -/
structure RawArgs where
  show_all : Bool
  number_nonblank : Bool
  vE : Bool
  show_ends : Bool
  number : Bool
  squeeze_blank : Bool
  vT : Bool
  show_tabs : Bool
  show_nonprinting : Bool
deriving DecidableEq

/-- The `Config` built by `get_args` (src/src/lib.rs lines 178-196). -/
def mkConfig (a : RawArgs) : Config where
  number_lines := a.number
  number_nonblank_lines := a.number_nonblank
  show_tabs := a.show_tabs || a.show_all || a.vT
  show_ends := a.show_ends || a.show_all || a.vE
  show_nonprinting := a.show_nonprinting || a.show_all || a.vE || a.vT
  squeeze_blank := a.squeeze_blank

/-- The per-line pipeline with the adjacent steps squeeze-check and
tab-visualization swapped: tabs are applied first and the squeeze check
tests the tab-transformed line. -/
def procLineSwapSqTabs (cfg : Config) (lineNum : Nat) (line : Line)
    (st : LineState) : LineState × Option Line :=
  let l₁ := if cfg.show_tabs then showTabs line else line
  if cfg.squeeze_blank && l₁.isEmpty && st.blankAppear then (st, none)
  else
    let st :=
      if cfg.squeeze_blank && l₁.isEmpty then { st with blankAppear := true }
      else st
    let l₂ := if cfg.show_ends then l₁ ++ [0x24] else l₁
    let l₃ := if cfg.show_nonprinting then escapeLine l₂ else l₂
    if cfg.number_lines then
      (st, some (numFmt (lineNum + 1) ++ 9 :: l₃))
    else if cfg.number_nonblank_lines then
      if l₃.isEmpty then (st, some [])
      else ({ st with lastNum := st.lastNum + 1 },
            some (numFmt (st.lastNum + 1) ++ 9 :: l₃))
    else (st, some l₃)

/-- The per-line pipeline with the adjacent steps tab-visualization and
end-marker swapped: the `$` is appended first, then tabs are replaced. -/
def procLineSwapTabsEnds (cfg : Config) (lineNum : Nat) (line : Line)
    (st : LineState) : LineState × Option Line :=
  if cfg.squeeze_blank && line.isEmpty && st.blankAppear then (st, none)
  else
    let st :=
      if cfg.squeeze_blank && line.isEmpty then { st with blankAppear := true }
      else st
    let l₁ := if cfg.show_ends then line ++ [0x24] else line
    let l₂ := if cfg.show_tabs then showTabs l₁ else l₁
    let l₃ := if cfg.show_nonprinting then escapeLine l₂ else l₂
    if cfg.number_lines then
      (st, some (numFmt (lineNum + 1) ++ 9 :: l₃))
    else if cfg.number_nonblank_lines then
      if l₃.isEmpty then (st, some [])
      else ({ st with lastNum := st.lastNum + 1 },
            some (numFmt (st.lastNum + 1) ++ 9 :: l₃))
    else (st, some l₃)

/-- The per-line pipeline with the adjacent steps end-marker and
nonprinting-escape swapped: the line is escaped first, then `$` appended. -/
def procLineSwapEndsNp (cfg : Config) (lineNum : Nat) (line : Line)
    (st : LineState) : LineState × Option Line :=
  if cfg.squeeze_blank && line.isEmpty && st.blankAppear then (st, none)
  else
    let st :=
      if cfg.squeeze_blank && line.isEmpty then { st with blankAppear := true }
      else st
    let l₁ := if cfg.show_tabs then showTabs line else line
    let l₂ := if cfg.show_nonprinting then escapeLine l₁ else l₁
    let l₃ := if cfg.show_ends then l₂ ++ [0x24] else l₂
    if cfg.number_lines then
      (st, some (numFmt (lineNum + 1) ++ 9 :: l₃))
    else if cfg.number_nonblank_lines then
      if l₃.isEmpty then (st, some [])
      else ({ st with lastNum := st.lastNum + 1 },
            some (numFmt (st.lastNum + 1) ++ 9 :: l₃))
    else (st, some l₃)

/-- The per-line pipeline with the adjacent steps nonprinting-escape and
numbering swapped: the numbering decision and prefix are computed on the
pre-escape line, then the assembled output line is escaped. -/
def procLineSwapNpNum (cfg : Config) (lineNum : Nat) (line : Line)
    (st : LineState) : LineState × Option Line :=
  if cfg.squeeze_blank && line.isEmpty && st.blankAppear then (st, none)
  else
    let st :=
      if cfg.squeeze_blank && line.isEmpty then { st with blankAppear := true }
      else st
    let l₁ := if cfg.show_tabs then showTabs line else line
    let l₂ := if cfg.show_ends then l₁ ++ [0x24] else l₁
    let r : LineState × Option Line :=
      if cfg.number_lines then
        (st, some (numFmt (lineNum + 1) ++ 9 :: l₂))
      else if cfg.number_nonblank_lines then
        if l₂.isEmpty then (st, some [])
        else ({ st with lastNum := st.lastNum + 1 },
              some (numFmt (st.lastNum + 1) ++ 9 :: l₂))
      else (st, some l₂)
    (r.1, if cfg.show_nonprinting then r.2.map escapeLine else r.2)

/-- Order-sensitivity of one adjacent-pair swap, as the claim asserts it:
some flag combination and input distinguish the swapped pipeline from the
real one. -/
def orderSensitive
    (alt : Config → Nat → Line → LineState → LineState × Option Line) : Prop :=
  ∃ cfg n l st, procLine cfg n l st ≠ alt cfg n l st

/-- The C8 claim as stated: all four adjacent-pair swaps are observable. -/
def claimC8 : Prop :=
  orderSensitive procLineSwapSqTabs ∧ orderSensitive procLineSwapTabsEnds ∧
  orderSensitive procLineSwapEndsNp ∧ orderSensitive procLineSwapNpNum

/-- Configuration with only number-all-lines and squeeze-blank-runs. -/
def cfgNumSqueeze : Config := ⟨true, false, false, false, false, true⟩

/-- Configuration with show-tabs, show-line-ends and show-nonprinting. -/
def cfgAllShow : Config := ⟨false, false, true, true, true, false⟩

/-- Raw arguments with only `-A` (show-all) present. -/
def rawShowAll : RawArgs := ⟨true, false, false, false, false, false, false, false, false⟩

theorem showTabs_isEmpty (l : Line) : (showTabs l).isEmpty = l.isEmpty := by
  cases l with
  | nil => rfl
  | cons c cs => by_cases h : c = 9 <;> simp [showTabs, h]

theorem showTabs_append (a b : Line) :
    showTabs (a ++ b) = showTabs a ++ showTabs b := by
  induction a with
  | nil => rfl
  | cons c cs ih => simp [showTabs, ih]

theorem escapeLine_append (a b : Line) :
    escapeLine (a ++ b) = escapeLine a ++ escapeLine b := by
  induction a with
  | nil => rfl
  | cons c cs ih => simp [escapeLine, ih]

theorem escapeCharChecked_eq_some (c : Nat) :
    escapeCharChecked c = some (escapeChar c) := by
  unfold escapeChar escapeCharChecked
  split
  · next h =>
    have hv : char_from_u32 (c + 0x40) = some (c + 0x40) := by
      unfold char_from_u32
      rw [if_pos (Or.inl (by omega))]
    rw [hv]
    rfl
  · split
    · rfl
    · split <;> rfl

theorem escapeLineChecked_eq_some (l : Line) :
    escapeLineChecked l = some (escapeLine l) := by
  induction l with
  | nil => rfl
  | cons c cs ih => simp [escapeLineChecked, escapeLine, escapeCharChecked_eq_some, ih]

theorem procLineSwapSqTabs_eq (cfg : Config) (n : Nat) (l : Line)
    (st : LineState) : procLineSwapSqTabs cfg n l st = procLine cfg n l st := by
  cases h : cfg.show_tabs <;>
    simp [procLineSwapSqTabs, procLine, transform, h, showTabs_isEmpty]

theorem procLineSwapTabsEnds_eq (cfg : Config) (n : Nat) (l : Line)
    (st : LineState) : procLineSwapTabsEnds cfg n l st = procLine cfg n l st := by
  cases hT : cfg.show_tabs <;> cases hE : cfg.show_ends <;>
    simp [procLineSwapTabsEnds, procLine, transform, hT, hE,
      showTabs_append, showTabs]

theorem procLineSwapEndsNp_eq (cfg : Config) (n : Nat) (l : Line)
    (st : LineState) : procLineSwapEndsNp cfg n l st = procLine cfg n l st := by
  cases hE : cfg.show_ends <;> cases hN : cfg.show_nonprinting <;>
    simp [procLineSwapEndsNp, procLine, transform, hE, hN,
      escapeLine_append, escapeLine, escapeChar, escapeCharChecked]

/-- C1: with squeeze-blank-runs enabled, the claim that an empty line whose
immediately preceding line was non-empty is always emitted fails: on input
lines `["", "x", ""]` the code drops the final empty line, because
`blank_appear` is set to true at the first empty line and never reset to
false on a non-empty line (src/src/lib.rs lines 35-41 have no reset
branch), contradicting the `-s` help text "suppress repeated empty output
lines". -/
theorem catr_C1_bug :
    procLines ⟨false, false, false, false, false, true⟩
      [Except.ok [], Except.ok [120], Except.ok []] 0 ⟨0, false⟩ =
      ([[], [120]], Except.ok ()) := rfl

/-- C2: the claim that the number-nonblank emptiness test uses the original
pre-transform line fails: with number-nonblank-lines and show-line-ends
enabled, a single originally-empty input line is numbered, because the
test on src/src/lib.rs line 73 runs on the transformed line `"$"`; the
code prints `"     1\t$"` and increments the counter instead of emitting a
bare empty line, contradicting the `-b` help text "Number non-blank
lines". -/
theorem catr_C2_bug :
    procLines ⟨false, true, false, true, false, false⟩
      [Except.ok []] 0 ⟨0, false⟩ =
      ([[32, 32, 32, 32, 32, 49, 9, 36]], Except.ok ()) := rfl

/-- C4: the claim that the overall result reports failure when an input
fails acquisition is false of the code: `run` returns `Ok(())`
unconditionally (src/src/lib.rs line 84), so a run whose only input fails
to open still reports success. -/
theorem catr_C4_bug :
    run ⟨false, false, false, false, false, false⟩
      [("blargh", Except.error "No such file or directory (os error 2)")] =
      ([], ["blargh: No such file or directory (os error 2)"],
       Except.ok ()) := rfl

/-- C5: on acquisition failure for an input, exactly one diagnostic line
`identifier ++ ": " ++ description` is written, no stdout line is produced
for that input, and the run continues with the remaining inputs, whose
output, diagnostics and final result are unchanged. -/
theorem catr_C5 (cfg : Config) (f e : String)
    (rest : List (String × Except String (List (Except String Line)))) :
    run cfg ((f, Except.error e) :: rest) =
      ((run cfg rest).1, (f ++ ": " ++ e) :: (run cfg rest).2.1,
       (run cfg rest).2.2) := rfl

theorem procLines_ok_prefix_error (cfg : Config) (e : String)
    (bad : List (Except String Line)) :
    ∀ (good : List Line) (n : Nat) (st : LineState),
      procLines cfg (good.map Except.ok ++ Except.error e :: bad) n st =
        ((procLines cfg (good.map Except.ok) n st).1, Except.error e)
  | [], _, _ => rfl
  | g :: gs, n, st => by
    simp [procLines, procLines_ok_prefix_error cfg e bad gs]

/-- C6: an error while reading a line from an already-opened stream is
fatal: the run returns that error, having emitted only the lines produced
before the error; no later line of the current input and no subsequent
input contributes any output or diagnostic. -/
theorem catr_C6 (cfg : Config) (f e : String) (good : List Line)
    (bad : List (Except String Line))
    (rest : List (String × Except String (List (Except String Line)))) :
    run cfg ((f, Except.ok (good.map Except.ok ++ Except.error e :: bad)) :: rest) =
      ((procLines cfg (good.map Except.ok) 0 ⟨0, false⟩).1, [],
       Except.error e) := by
  simp [run, procLines_ok_prefix_error]

/-- C7: a configuration built with show-all enabled produces on every input
the same output as the configuration with show-tabs, show-line-ends and
show-nonprinting each enabled independently, all other raw flags equal. -/
theorem catr_C7 (a : RawArgs)
    (inputs : List (String × Except String (List (Except String Line))))
    (h : a.show_all = true) :
    run (mkConfig a) inputs =
      run (mkConfig { a with show_all := false, show_tabs := true,
                             show_ends := true, show_nonprinting := true })
        inputs := by
  have hc : mkConfig a =
      mkConfig { a with show_all := false, show_tabs := true,
                        show_ends := true, show_nonprinting := true } := by
    simp [mkConfig, h]
  rw [hc]

theorem catr_C7_witness :
    run (mkConfig rawShowAll) [("-", Except.ok [Except.ok [9]])] =
      run (mkConfig { rawShowAll with show_all := false, show_tabs := true,
                                      show_ends := true,
                                      show_nonprinting := true })
        [("-", Except.ok [Except.ok [9]])] :=
  catr_C7 rawShowAll [("-", Except.ok [Except.ok [9]])] rfl

/-- C3: the show-nonprinting re-encoding of one character: code points
0x01-0x1E become a caret followed by the character with code point
(original + 0x40); 0x7F becomes `^?`; 0x80-0xFF become `M-` followed by
the decimal digits of the code point (hundreds, tens, units digits); every
other character, including 0x00, 0x1F and all code points above 0xFF,
passes through unchanged. -/
theorem catr_C3 :
    (∀ c : Nat, 1 ≤ c → c ≤ 0x1E → escapeChar c = [0x5E, c + 0x40]) ∧
    escapeChar 0x7F = [0x5E, 0x3F] ∧
    (∀ c : Nat, 0x80 ≤ c → c ≤ 0xFF →
      escapeChar c =
        [0x4D, 0x2D, 48 + c / 100, 48 + c / 10 % 10, 48 + c % 10]) ∧
    (∀ c : Nat, ¬(1 ≤ c ∧ c ≤ 0x1E) → c ≠ 0x7F → ¬(0x80 ≤ c ∧ c ≤ 0xFF) →
      escapeChar c = [c]) := by
  refine ⟨?_, by decide, ?_, ?_⟩
  · intro c h1 h2
    interval_cases c <;> decide
  · intro c h1 h2
    interval_cases c <;> decide
  · intro c h1 h2 h3
    simp only [escapeChar, escapeCharChecked, if_neg h1, if_neg h2, if_neg h3]
    rfl

theorem catr_C3_witness :
    escapeChar 1 = [0x5E, 1 + 0x40] ∧
    escapeChar 0x80 =
      [0x4D, 0x2D, 48 + 0x80 / 100, 48 + 0x80 / 10 % 10, 48 + 0x80 % 10] ∧
    escapeChar 0x100 = [0x100] :=
  ⟨catr_C3.1 1 (by decide) (by decide),
   catr_C3.2.2.1 0x80 (by decide) (by decide),
   catr_C3.2.2.2 0x100 (by decide) (by decide) (by decide)⟩

/-- C8: counterexample to the claim as stated: the tab-visualization and
end-marker adjacent pair is not order-sensitive (nor are the other two
early pairs), so it is false that every adjacent-pair swap changes the
output on some input. -/
theorem catr_C8_counterexample : ¬ claimC8 := by
  intro h
  obtain ⟨cfg, n, l, st, hne⟩ := h.2.1
  exact hne (procLineSwapTabsEnds_eq cfg n l st).symm

/-- C8 amended: the pipeline applies its steps in the fixed order
squeeze-check, tabs, end-marker, nonprinting-escape, numbering, but only
the nonprinting-escape/numbering adjacent pair is observable: swapping it
changes the output on a crafted input, while swapping any of the other
three adjacent pairs yields identical results on every input and every
flag combination. -/
theorem catr_C8 :
    (∀ cfg n l st, procLineSwapSqTabs cfg n l st = procLine cfg n l st) ∧
    (∀ cfg n l st, procLineSwapTabsEnds cfg n l st = procLine cfg n l st) ∧
    (∀ cfg n l st, procLineSwapEndsNp cfg n l st = procLine cfg n l st) ∧
    (∃ cfg n l st, procLineSwapNpNum cfg n l st ≠ procLine cfg n l st) := by
  refine ⟨procLineSwapSqTabs_eq, procLineSwapTabsEnds_eq,
    procLineSwapEndsNp_eq, ?_⟩
  exact ⟨⟨true, false, false, false, true, false⟩, 0, [97], ⟨0, false⟩,
    by decide⟩

/-- C9: the pipeline is total over every decoded line: the fallible
transform (with the `unwrap` on `char::from_u32` kept as an `Option`)
always succeeds and agrees with the total transform used by the pipeline;
in particular `char::from_u32(c + 0x40)` succeeds for every code point c
in 0x01-0x1E, so the unwrap is unreachable as an error. -/
theorem catr_C9 :
    (∀ (cfg : Config) (l : Line),
      transformChecked cfg l = some (transform cfg l)) ∧
    (∀ c : Nat, 1 ≤ c → c ≤ 0x1E →
      char_from_u32 (c + 0x40) = some (c + 0x40)) := by
  constructor
  · intro cfg l
    cases h : cfg.show_nonprinting <;>
      simp [transform, transformChecked, h, escapeLineChecked_eq_some]
  · intro c h1 h2
    unfold char_from_u32
    rw [if_pos (Or.inl (by omega))]

theorem catr_C9_witness :
    transformChecked cfgAllShow [9, 1] = some (transform cfgAllShow [9, 1]) ∧
    char_from_u32 (1 + 0x40) = some (1 + 0x40) :=
  ⟨catr_C9.1 cfgAllShow [9, 1], catr_C9.2 1 (by decide) (by decide)⟩

/-- C10: with number-all-lines and squeeze-blank-runs both enabled, a
squeezed blank line still consumes its input ordinal: on the input lines
`[a, "", "", b]` (a, b non-empty), the emitted lines carry the numbers
n+1, n+2 and n+4 — the position of each line in the raw input — so the
printed numbers skip a value across the squeezed blank. -/
theorem catr_C10 (cfg : Config) (a b : Line) (n k : Nat)
    (hn : cfg.number_lines = true) (hs : cfg.squeeze_blank = true)
    (ha : a ≠ []) (hb : b ≠ []) :
    procLines cfg [Except.ok a, Except.ok [], Except.ok [], Except.ok b] n
        ⟨k, false⟩ =
      ([numFmt (n + 1) ++ 9 :: transform cfg a,
        numFmt (n + 2) ++ 9 :: transform cfg [],
        numFmt (n + 4) ++ 9 :: transform cfg b], Except.ok ()) := by
  have ha' : a.isEmpty = false := by
    cases a
    · exact absurd rfl ha
    · rfl
  have hb' : b.isEmpty = false := by
    cases b
    · exact absurd rfl hb
    · rfl
  simp [procLines, procLine, hn, hs, ha', hb', Nat.add_assoc]

theorem catr_C10_witness :
    procLines cfgNumSqueeze
        [Except.ok [97], Except.ok [], Except.ok [], Except.ok [98]] 0
        ⟨0, false⟩ =
      ([numFmt 1 ++ 9 :: transform cfgNumSqueeze [97],
        numFmt 2 ++ 9 :: transform cfgNumSqueeze [],
        numFmt 4 ++ 9 :: transform cfgNumSqueeze [98]], Except.ok ()) :=
  catr_C10 cfgNumSqueeze [97] [98] 0 0 rfl rfl (by decide) (by decide)
